import Mathlib

/-!
Shallow embedding of mirgecom's diffusion operator (src/mirgecom/diffusion.py) and of the
fluid-wall thermal coupling layer (src/mirgecom/multiphysics/thermally_coupled_fluid_wall.py).

DOF arrays are modelled as functions from node index to rationals; object arrays of DOF
arrays (gradients, normals) as lists of such functions.  The external grudge
discretization collection is an abstract bundle of collaborators: projection between
discretizations is an explicit linear stencil (op.project is a linear interpolation
operator), while the normal field, the trace-pair exchange, the weak-form derivative
operators and the mass operators are uninterpreted functions of the collection.
Python exceptions (TypeError, KeyError, AttributeError, IndexError) are modelled with
Except.
-/

/-- A DOF array: one rational sample per node of some discretization. -/
abbrev DOFArray : Type := Nat → ℚ

/-- An object array of DOF arrays, e.g. a gradient with one component per dimension. -/
abbrev VecField : Type := List DOFArray

def fadd (a b : DOFArray) : DOFArray := fun i => a i + b i

def fsub (a b : DOFArray) : DOFArray := fun i => a i - b i

def fmul (a b : DOFArray) : DOFArray := fun i => a i * b i

def fneg (a : DOFArray) : DOFArray := fun i => - a i

def fscale (c : ℚ) (a : DOFArray) : DOFArray := fun i => c * a i

def favg (a b : DOFArray) : DOFArray := fun i => (a i + b i) / 2

def fzero : DOFArray := fun _ => 0

def fsum (l : List DOFArray) : DOFArray := l.foldr fadd fzero

/-- Scalar DOF array times object array, componentwise (numpy broadcast). -/
def svmul (s : DOFArray) (v : VecField) : VecField := v.map (fmul s)

def vadd (a b : VecField) : VecField := List.zipWith fadd a b

def vsub (a b : VecField) : VecField := List.zipWith fsub a b

def vavg (a b : VecField) : VecField := List.zipWith favg a b

def vzero (dim : Nat) : VecField := List.replicate dim fzero

/-- Sum of a list of object arrays; Python's sum with 0 broadcast to the field shape. -/
def vsum (dim : Nat) (l : List VecField) : VecField := l.foldr vadd (vzero dim)

/-- np.dot of two equal-length object arrays: sum of componentwise products. -/
def vdot (a b : VecField) : DOFArray := fsum (List.zipWith fmul a b)

/-- Discretization tag: base discretization or an overintegration quadrature one. -/
inductive DiscrTag where
  | base
  | quad
deriving DecidableEq

/-- Domain tag of a DOF descriptor: a volume, a boundary of a volume, or the all-faces
restriction of a volume (FACE_RESTR_ALL). -/
inductive DomTag where
  | vol (v : Nat)
  | bdry (v : Nat) (tag : Nat)
  | allFaces (v : Nat)
deriving DecidableEq

def DomTag.volOf : DomTag → Nat
  | .vol v => v
  | .bdry v _ => v
  | .allFaces v => v

def DomTag.str : DomTag → String
  | .vol v => "vol" ++ toString v
  | .bdry v t => "bdry" ++ toString v ++ "_" ++ toString t
  | .allFaces v => "allfaces" ++ toString v

/-- A grudge DOF descriptor: a domain tag plus a discretization tag. -/
structure DofDesc where
  dom : DomTag
  discrTag : DiscrTag
deriving DecidableEq

def DofDesc.withDiscrTag (dd : DofDesc) (t : DiscrTag) : DofDesc := { dd with discrTag := t }

def DofDesc.withBoundaryTagAll (dd : DofDesc) : DofDesc :=
  { dd with dom := .allFaces dd.dom.volOf }

def DofDesc.untrace (dd : DofDesc) : DofDesc := { dd with dom := .vol dd.dom.volOf }

/-- dd.trace(FACE_RESTR_ALL) on a volume descriptor. -/
def DofDesc.traceAll (dd : DofDesc) : DofDesc := { dd with dom := .allFaces dd.dom.volOf }

def DofDesc.withDomainTag (dd : DofDesc) (t : DomTag) : DofDesc := { dd with dom := t }

/-- Communication tags distinguishing logical trace-pair exchange channels; they route the
exchange and never change exchanged values.  Constructors model the marker classes
_DiffusionStateTag, _DiffusionKappaTag, _DiffusionGradTag, _InterVolNoGradTag,
_InterVolTag. -/
inductive CommTag where
  | diffusionStateTag
  | diffusionKappaTag
  | diffusionGradTag
  | interVolNoGradTag
  | interVolTag
deriving DecidableEq

/-- A trace pair: interior and exterior values on a shared face descriptor. -/
structure TracePair (α : Type) where
  dd : DofDesc
  int : α
  ext : α

def TracePair.avg (tp : TracePair DOFArray) : DOFArray := favg tp.int tp.ext

/-- The abstract grudge discretization collection.  Projection is a linear stencil:
entry (c, j) of projStencil src dst i contributes c * a j to node i of the projection of
a.  The remaining collaborators (normals, interior faces, the exterior trace of an
interior face pair, the weak-form operators, the mass operators, the inter-volume
exchange) are uninterpreted. -/
structure Dcoll : Type 1 where
  dim : Nat
  projStencil : DofDesc → DofDesc → Nat → List (ℚ × Nat)
  normal : DofDesc → VecField
  intFaceDds : DofDesc → List DofDesc
  extTrace : DofDesc → DOFArray → DOFArray
  weakLocalGrad : DofDesc → DOFArray → VecField
  weakLocalDiv : DofDesc → VecField → DOFArray
  invMassF : DofDesc → DOFArray → DOFArray
  invMassV : DofDesc → VecField → VecField
  faceMassF : DofDesc → DOFArray → DOFArray
  faceMassV : DofDesc → VecField → VecField
  interVolumeTracePairs : {α : Type} → (DofDesc × DofDesc) → (α × α) → CommTag →
    (DofDesc × DofDesc) → List (TracePair α)

/-- op.project of a DOF array between two discretizations. -/
def Dcoll.proj (dc : Dcoll) (src dst : DofDesc) (a : DOFArray) : DOFArray :=
  fun i => ((dc.projStencil src dst i).map (fun p => p.1 * a p.2)).sum

/-- op.project of an object array: componentwise. -/
def Dcoll.projV (dc : Dcoll) (src dst : DofDesc) (v : VecField) : VecField :=
  v.map (dc.proj src dst)

/-- grudge interior_trace_pairs: one trace pair per interior face partition of the volume;
the interior side is the local restriction (a projection), the exterior side the
neighboring elements' data.  The communication tag routes the exchange only. -/
def interior_trace_pairs (dc : Dcoll) (u : DOFArray) (volume_dd : DofDesc) (tag : CommTag) :
    List (TracePair DOFArray) :=
  (dc.intFaceDds volume_dd).map
    (fun fdd => ⟨fdd, dc.proj volume_dd fdd u, dc.extTrace fdd u⟩)

/-- interior_trace_pairs on an object array of DOF arrays. -/
def interior_trace_pairs_vec (dc : Dcoll) (u : VecField) (volume_dd : DofDesc)
    (tag : CommTag) : List (TracePair VecField) :=
  (dc.intFaceDds volume_dd).map
    (fun fdd => ⟨fdd, u.map (dc.proj volume_dd fdd), u.map (dc.extTrace fdd)⟩)

/-- mirgecom.diffusion.grad_flux: numerical flux for grad(u), -avg(u) * normal at
quadrature resolution, projected to the all-faces discretization. -/
def grad_flux (dc : Dcoll) (u_tpair : TracePair DOFArray) (quadrature_tag : DiscrTag) :
    VecField :=
  let dd_trace := u_tpair.dd
  let dd_trace_quad := dd_trace.withDiscrTag quadrature_tag
  let dd_allfaces_quad := dd_trace_quad.withBoundaryTagAll
  let normal_quad := dc.normal dd_trace_quad
  let to_quad := fun (a : DOFArray) => dc.proj dd_trace dd_trace_quad a
  let flux := fun (u : DOFArray) (normal : VecField) => svmul (fneg u) normal
  dc.projV dd_trace_quad dd_allfaces_quad (flux (to_quad u_tpair.avg) normal_quad)

/-- mirgecom.diffusion.diffusion_flux: numerical flux for div(kappa grad u).  Each side's
kappa and grad u are projected to the quadrature discretization and combined into that
side's flux -kappa * (grad u . n); the interior and exterior fluxes are then averaged and
projected to the all-faces discretization. -/
def diffusion_flux (dc : Dcoll) (kappa_tpair : TracePair DOFArray)
    (grad_u_tpair : TracePair VecField) (quadrature_tag : DiscrTag) : DOFArray :=
  let dd_trace := grad_u_tpair.dd
  let dd_trace_quad := dd_trace.withDiscrTag quadrature_tag
  let dd_allfaces_quad := dd_trace_quad.withBoundaryTagAll
  let normal_quad := dc.normal dd_trace_quad
  let to_quad := fun (a : DOFArray) => dc.proj dd_trace dd_trace_quad a
  let to_quad_vec := fun (a : VecField) => a.map (dc.proj dd_trace dd_trace_quad)
  let flux := fun (kappa : DOFArray) (grad_u : VecField) (normal : VecField) =>
    fmul (fneg kappa) (vdot grad_u normal)
  let flux_tpair : TracePair DOFArray :=
    ⟨dd_trace_quad,
     flux (to_quad kappa_tpair.int) (to_quad_vec grad_u_tpair.int) normal_quad,
     flux (to_quad kappa_tpair.ext) (to_quad_vec grad_u_tpair.ext) normal_quad⟩
  dc.proj dd_trace_quad dd_allfaces_quad flux_tpair.avg

/-- Modelled from the spec (section 4.1): the numerical flux for div(kappa grad u) is the
average of the two one-sided fluxes -kappa * (grad u . n), kappa and grad u each projected
to the quadrature discretization and combined per side first, the two sides averaged only
afterwards, and the average projected onto the all-faces discretization. -/
def diffusion_flux_spec (dc : Dcoll) (kappa_tpair : TracePair DOFArray)
    (grad_u_tpair : TracePair VecField) (quadrature_tag : DiscrTag) : DOFArray :=
  let dd_trace := grad_u_tpair.dd
  let dd_q := dd_trace.withDiscrTag quadrature_tag
  let n := dc.normal dd_q
  let side := fun (kappa : DOFArray) (grad_u : VecField) =>
    fmul (fneg (dc.proj dd_trace dd_q kappa))
      (vdot (grad_u.map (dc.proj dd_trace dd_q)) n)
  dc.proj dd_q dd_q.withBoundaryTagAll
    (favg (side kappa_tpair.int grad_u_tpair.int) (side kappa_tpair.ext grad_u_tpair.ext))

/-- The formula the spec rules out for diffusion_flux: take the trace-pair averages of
kappa and grad u first, project the averages to quadrature, and combine once as
-avg(kappa) * (avg(grad u) . n). -/
def diffusion_flux_avg_first (dc : Dcoll) (kappa_tpair : TracePair DOFArray)
    (grad_u_tpair : TracePair VecField) (quadrature_tag : DiscrTag) : DOFArray :=
  let dd_trace := grad_u_tpair.dd
  let dd_q := dd_trace.withDiscrTag quadrature_tag
  let n := dc.normal dd_q
  let kappa_avg := dc.proj dd_trace dd_q (favg kappa_tpair.int kappa_tpair.ext)
  let grad_u_avg := (vavg grad_u_tpair.int grad_u_tpair.ext).map (dc.proj dd_trace dd_q)
  dc.proj dd_q dd_q.withBoundaryTagAll (fmul (fneg kappa_avg) (vdot grad_u_avg n))

/-- Python exception kinds raised by the modelled code. -/
inductive PyErr where
  | typeError (msg : String)
  | keyError (key : String)
  | attributeError (msg : String)
  | indexError (msg : String)

/-- The boundary objects a diffusion boundary map can hold: the two DiffusionBoundary
subclasses of mirgecom.diffusion, the InterfaceWallBoundary subclass from the coupling
layer, and an object of any unrelated type.  Only the last one is not an instance of
DiffusionBoundary. -/
inductive BdryObject where
  | dirichlet (value : DOFArray)
  | neumann (value : DOFArray)
  | interfaceWall (u_ext : DOFArray) (grad_u_ext : VecField) (kappa_ext : DOFArray)
  | other (descr : String)

/-- isinstance(bdry, DiffusionBoundary): InterfaceWallBoundary subclasses
DiffusionBoundary, so it passes this check. -/
def isDiffusionBoundaryInstance : BdryObject → Bool
  | .other _ => false
  | _ => true

def BdryObject.isInterfaceWall : BdryObject → Bool
  | .interfaceWall .. => true
  | _ => false

/-- DirichletDiffusionBoundary.get_grad_flux: restrict u to the boundary, synthesize the
mirrored exterior value 2*f - u_int, and delegate to grad_flux. -/
def DirichletDiffusionBoundary.get_grad_flux (value : DOFArray) (dc : Dcoll)
    (dd_bdry : DofDesc) (u : DOFArray) (quadrature_tag : DiscrTag) : VecField :=
  let u_int := dc.proj dd_bdry.untrace dd_bdry u
  let u_tpair : TracePair DOFArray := ⟨dd_bdry, u_int, fsub (fscale 2 value) u_int⟩
  grad_flux dc u_tpair quadrature_tag

/-- DirichletDiffusionBoundary.get_diffusion_flux: project kappa and grad_u to the
boundary with matching interior and exterior values and delegate to diffusion_flux; the
prescribed value plays no role here. -/
def DirichletDiffusionBoundary.get_diffusion_flux (value : DOFArray) (dc : Dcoll)
    (dd_bdry : DofDesc) (kappa : DOFArray) (grad_u : VecField)
    (quadrature_tag : DiscrTag) : DOFArray :=
  let dd_vol := dd_bdry.untrace
  let kappa_int := dc.proj dd_vol dd_bdry kappa
  let kappa_tpair : TracePair DOFArray := ⟨dd_bdry, kappa_int, kappa_int⟩
  let grad_u_int := grad_u.map (dc.proj dd_vol dd_bdry)
  let grad_u_tpair : TracePair VecField := ⟨dd_bdry, grad_u_int, grad_u_int⟩
  diffusion_flux dc kappa_tpair grad_u_tpair quadrature_tag

/-- NeumannDiffusionBoundary.get_grad_flux: exterior equals interior, delegate to
grad_flux. -/
def NeumannDiffusionBoundary.get_grad_flux (value : DOFArray) (dc : Dcoll)
    (dd_bdry : DofDesc) (u : DOFArray) (quadrature_tag : DiscrTag) : VecField :=
  let u_int := dc.proj dd_bdry.untrace dd_bdry u
  let u_tpair : TracePair DOFArray := ⟨dd_bdry, u_int, u_int⟩
  grad_flux dc u_tpair quadrature_tag

/-- NeumannDiffusionBoundary.get_diffusion_flux: compute the flux directly as
-kappa_int * g at quadrature resolution and project to the all-faces discretization,
without constructing a gradient trace pair. -/
def NeumannDiffusionBoundary.get_diffusion_flux (value : DOFArray) (dc : Dcoll)
    (dd_bdry : DofDesc) (kappa : DOFArray) (grad_u : VecField)
    (quadrature_tag : DiscrTag) : DOFArray :=
  let dd_bdry_quad := dd_bdry.withDiscrTag quadrature_tag
  let dd_allfaces_quad := dd_bdry_quad.withBoundaryTagAll
  let kappa_int_quad := dc.proj dd_bdry.untrace dd_bdry_quad kappa
  let value_quad := dc.proj dd_bdry dd_bdry_quad value
  let flux_quad := fmul (fneg kappa_int_quad) value_quad
  dc.proj dd_bdry_quad dd_allfaces_quad flux_quad

/-- Dynamic dispatch of bdry.get_grad_flux(dcoll, dd_bdry, u, quadrature_tag=...) exactly
as grad_operator invokes it, with three positional arguments.  Dirichlet and Neumann
declare (dcoll, dd_bdry, u) and the call binds; InterfaceWallBoundary declares
(discr, dd_vol, dd_bdry, u), one more required positional parameter than supplied, so
Python raises TypeError before the method body runs.  An object without the method would
raise AttributeError, but the operators validate isinstance first, so that branch is
unreachable through them. -/
def BdryObject.call_get_grad_flux (b : BdryObject) (dc : Dcoll) (dd_bdry : DofDesc)
    (u : DOFArray) (quadrature_tag : DiscrTag) : Except PyErr VecField :=
  match b with
  | .dirichlet f => .ok (DirichletDiffusionBoundary.get_grad_flux f dc dd_bdry u quadrature_tag)
  | .neumann g => .ok (NeumannDiffusionBoundary.get_grad_flux g dc dd_bdry u quadrature_tag)
  | .interfaceWall .. =>
      .error (.typeError "get_grad_flux() missing 1 required positional argument: u")
  | .other _ => .error (.attributeError "object has no attribute get_grad_flux")

/-- Dynamic dispatch of bdry.get_diffusion_flux(dcoll, dd_bdry, kappa, grad_u,
quadrature_tag=...) exactly as diffusion_operator invokes it, with four positional
arguments.  InterfaceWallBoundary declares (discr, dd_vol, dd_bdry, u, kappa, grad_u),
two more required positional parameters than supplied, so Python raises TypeError before
the method body runs (its body would in turn call diffusion_flux with five trace pairs
where the kernel accepts two). -/
def BdryObject.call_get_diffusion_flux (b : BdryObject) (dc : Dcoll) (dd_bdry : DofDesc)
    (kappa : DOFArray) (grad_u : VecField) (quadrature_tag : DiscrTag) :
    Except PyErr DOFArray :=
  match b with
  | .dirichlet f =>
      .ok (DirichletDiffusionBoundary.get_diffusion_flux f dc dd_bdry kappa grad_u quadrature_tag)
  | .neumann g =>
      .ok (NeumannDiffusionBoundary.get_diffusion_flux g dc dd_bdry kappa grad_u quadrature_tag)
  | .interfaceWall .. =>
      .error (.typeError "get_diffusion_flux() missing 2 required positional arguments: kappa and grad_u")
  | .other _ => .error (.attributeError "object has no attribute get_diffusion_flux")

/-- A boundary map: Python dict from (already normalized) boundary domain tags to
boundary objects, in insertion order. -/
abbrev BdryMap : Type := List (DomTag × BdryObject)

/-- as_dofdesc(bdtag).domain_tag; boundary keys in this model are already domain tags,
so the normalization is the identity on each key. -/
def as_dofdesc_domain_tag (t : DomTag) : DomTag := t

/-- The dict comprehension that rebuilds a boundary map with normalized keys. -/
def normalize_boundary_keys {β : Type} (bl : List (DomTag × β)) : List (DomTag × β) :=
  bl.map (fun p => (as_dofdesc_domain_tag p.1, p.2))

def unrecognizedMsg (t : DomTag) : String :=
  "Unrecognized boundary type for tag " ++ t.str ++ ". Must be an instance of DiffusionBoundary."

/-- The fail-fast validation loop of grad_operator and diffusion_operator: the first
entry that is not a DiffusionBoundary instance raises TypeError naming its tag. -/
def checkBoundaryTypes : BdryMap → Except PyErr Unit
  | [] => .ok ()
  | (t, b) :: rest =>
      if isDiffusionBoundaryInstance b then checkBoundaryTypes rest
      else .error (.typeError (unrecognizedMsg t))

/-- The first boundary-map entry that is not a DiffusionBoundary instance, if any. -/
def firstUnrecognized : BdryMap → Option DomTag
  | [] => none
  | (t, b) :: rest =>
      if isDiffusionBoundaryInstance b then firstUnrecognized rest else some t

/-- Elementwise evaluation with Python exception propagation: the first element whose
evaluation raises aborts the whole loop. -/
def mapExcept {α β : Type} (f : α → Except PyErr β) : List α → Except PyErr (List β)
  | [] => .ok []
  | a :: rest =>
    match f a with
    | .error e => .error e
    | .ok b =>
      match mapExcept f rest with
      | .error e => .error e
      | .ok bs => .ok (b :: bs)

/-- mirgecom.diffusion.grad_operator on a scalar DOF array and a boundary dict:
normalize the boundary keys, validate the boundary types, then assemble
inverse_mass(weak_local_grad(-u) - face_mass(interior grad fluxes + boundary grad
fluxes)). -/
def grad_operator_scalar (dc : Dcoll) (bl : BdryMap) (u : DOFArray)
    (quadrature_tag : DiscrTag) (volume_dd : DofDesc) : Except PyErr VecField :=
  let boundaries := normalize_boundary_keys bl
  match checkBoundaryTypes boundaries with
  | .error e => .error e
  | .ok _ =>
    match mapExcept
        (fun p => BdryObject.call_get_grad_flux p.2 dc (volume_dd.withDomainTag p.1) u quadrature_tag)
        boundaries with
    | .error e => .error e
    | .ok bdry_fluxes =>
      .ok (dc.invMassV volume_dd
        (vsub (dc.weakLocalGrad volume_dd (fneg u))
          (dc.faceMassV (volume_dd.withDiscrTag quadrature_tag).traceAll
            (vadd
              (vsum dc.dim
                ((interior_trace_pairs dc u volume_dd CommTag.diffusionStateTag).map
                  (fun tp => grad_flux dc tp quadrature_tag)))
              (vsum dc.dim bdry_fluxes)))))

/-- The dynamic values the operators' polymorphic parameters can hold: a DOFArray, a
numpy object array of DOFArrays, a boundary dict, a list of boundary dicts, a
discretization tag, a number, or None. -/
inductive PyVal where
  | field (f : DOFArray)
  | objArray (us : List DOFArray)
  | bdryMap (bl : BdryMap)
  | bdryList (bls : List BdryMap)
  | discrTag (t : DiscrTag)
  | num (q : ℚ)
  | noneV

/-- isinstance(x, (dict, list)). -/
def isDictOrList : PyVal → Bool
  | .bdryMap _ => true
  | .bdryList _ => true
  | _ => false

/-- isinstance(x, list). -/
def isBdryList : PyVal → Bool
  | .bdryList _ => true
  | _ => false

/-- The result of grad_operator: a gradient, or an object array of gradients for
object-array input. -/
inductive GradResult where
  | single (g : VecField)
  | objArray (gs : List VecField)

/-- mirgecom.diffusion.grad_operator.  Object-array input requires a same-length list of
boundary dicts and is mapped elementwise through the scalar operator; scalar input
requires a boundary dict. -/
def grad_operator (dc : Dcoll) (boundaries : PyVal) (u : PyVal)
    (quadrature_tag : DiscrTag) (volume_dd : DofDesc) : Except PyErr GradResult :=
  match u with
  | .objArray us =>
    match boundaries with
    | .bdryList bls =>
      if bls.length = us.length then
        match mapExcept (fun p => grad_operator_scalar dc p.1 p.2 quadrature_tag volume_dd)
            (bls.zip us) with
        | .error e => .error e
        | .ok gs => .ok (.objArray gs)
      else .error (.typeError "boundaries must be the same length as u")
    | _ => .error (.typeError "boundaries must be a list if u is an object array")
  | .field uf =>
    match boundaries with
    | .bdryMap bl =>
      match grad_operator_scalar dc bl uf quadrature_tag volume_dd with
      | .error e => .error e
      | .ok g => .ok (.single g)
    | _ => .error (.attributeError "boundaries object has no attribute items")
  | _ => .error (.typeError "u must be a DOFArray or an object array")

/-- The scalar result of diffusion_operator: diff_u, or (diff_u, grad_u) when
return_grad_u is set. -/
inductive DiffValue where
  | plain (diff_u : DOFArray)
  | withGrad (diff_u : DOFArray) (grad_u : VecField)

/-- The result of diffusion_operator: a scalar result or an object array of scalar
results. -/
inductive DiffResult where
  | single (v : DiffValue)
  | objArray (vs : List DiffValue)

/-- mirgecom.diffusion.diffusion_operator on a scalar DOF array and a boundary dict:
normalize keys, validate boundary types, compute grad_u through grad_operator unless it
was supplied, then assemble inverse_mass(weak_local_div(-kappa*grad_u) -
face_mass(interior diffusion fluxes + boundary diffusion fluxes)). -/
def diffusion_operator_scalar (dc : Dcoll) (kappa : DOFArray) (bl : BdryMap)
    (u : DOFArray) (quadrature_tag : DiscrTag) (return_grad_u : Bool)
    (volume_dd : DofDesc) (grad_u_supplied : Option VecField) : Except PyErr DiffValue :=
  let boundaries := normalize_boundary_keys bl
  match checkBoundaryTypes boundaries with
  | .error e => .error e
  | .ok _ =>
    match (match grad_u_supplied with
           | some g => Except.ok g
           | none => grad_operator_scalar dc boundaries u quadrature_tag volume_dd) with
    | .error e => .error e
    | .ok grad_u =>
      match mapExcept
          (fun p => BdryObject.call_get_diffusion_flux p.2 dc (volume_dd.withDomainTag p.1)
            kappa grad_u quadrature_tag)
          boundaries with
      | .error e => .error e
      | .ok bdry_fluxes =>
        let dd_vol_quad := volume_dd.withDiscrTag quadrature_tag
        let kappa_quad := dc.proj volume_dd dd_vol_quad kappa
        let grad_u_quad := grad_u.map (dc.proj volume_dd dd_vol_quad)
        let diff_u := dc.invMassF volume_dd
          (fsub (dc.weakLocalDiv dd_vol_quad (svmul (fneg kappa_quad) grad_u_quad))
            (dc.faceMassF dd_vol_quad.traceAll
              (fadd
                (fsum
                  (((interior_trace_pairs dc kappa volume_dd CommTag.diffusionKappaTag).zip
                      (interior_trace_pairs_vec dc grad_u volume_dd CommTag.diffusionGradTag)).map
                    (fun pq => diffusion_flux dc pq.1 pq.2 quadrature_tag)))
                (fsum bdry_fluxes))))
        if return_grad_u then .ok (.withGrad diff_u grad_u) else .ok (.plain diff_u)

/-- The body of diffusion_operator after argument normalization, dispatching on the
dynamic types of boundaries and u exactly as the Python code does.  The object-array
branch recurses elementwise into the scalar operator and does not forward a supplied
grad_u (the recursive call in the source passes no grad_u argument). -/
def diffusion_operator_body (dc : Dcoll) (kappa : DOFArray) (boundaries : PyVal)
    (u : PyVal) (quadrature_tag : DiscrTag) (return_grad_u : Bool) (volume_dd : DofDesc)
    (grad_u : Option VecField) : Except PyErr DiffResult :=
  match u with
  | .objArray us =>
    match boundaries with
    | .bdryList bls =>
      if bls.length = us.length then
        match mapExcept
            (fun p => diffusion_operator_scalar dc kappa p.1 p.2 quadrature_tag
              return_grad_u volume_dd none)
            (bls.zip us) with
        | .error e => .error e
        | .ok vs => .ok (.objArray vs)
      else .error (.typeError "boundaries must be the same length as u")
    | _ => .error (.typeError "boundaries must be a list if u is an object array")
  | .field uf =>
    match boundaries with
    | .bdryMap bl =>
      match diffusion_operator_scalar dc kappa bl uf quadrature_tag return_grad_u
          volume_dd grad_u with
      | .error e => .error e
      | .ok v => .ok (.single v)
    | _ => .error (.attributeError "boundaries object has no attribute items")
  | _ => .error (.typeError "u must be a DOFArray or an object array")

def all_arg_names : List String :=
  ["alpha", "kappa", "quad_tag", "boundaries", "u", "quadrature_tag"]

/-- The kwargs validation loop of _normalize_arguments: the first keyword not in
all_arg_names is reported. -/
def findUnexpected : List (String × PyVal) → Option String
  | [] => none
  | p :: rest => if all_arg_names.contains p.1 then findUnexpected rest else some p.1

def dictLookupLast {κ ν : Type} [DecidableEq κ] : List (κ × ν) → κ → Option ν
  | [], _ => none
  | p :: rest, key =>
    match dictLookupLast rest key with
    | some w => some w
    | none => if p.1 = key then some p.2 else none

/-- mirgecom.diffusion._normalize_arguments: the legacy-argument adapter of
diffusion_operator.  A second positional argument that is neither a dict nor a list
selects the old (kappa, quad_tag, boundaries, u) positional layout; excess positional
arguments and unexpected keywords raise TypeError; keyword values override positional
ones; alpha is accepted for kappa and quad_tag for quadrature_tag (deprecation warnings
elided); a missing required name raises KeyError. -/
def _normalize_arguments (args : List PyVal) (kwargs : List (String × PyVal)) :
    Except PyErr (PyVal × PyVal × PyVal × PyVal) :=
  let pos_arg_names : List String :=
    if 2 ≤ args.length && !(isDictOrList (args.getD 1 .noneV)) then
      ["kappa", "quad_tag", "boundaries", "u"]
    else
      ["kappa", "boundaries", "u"]
  if pos_arg_names.length < args.length then
    .error (.typeError ("diffusion_operator() takes up to "
      ++ toString pos_arg_names.length ++ " positional arguments but "
      ++ toString args.length ++ " were given"))
  else
    match findUnexpected kwargs with
    | some name =>
      .error (.typeError ("diffusion_operator() got an unexpected keyword argument " ++ name))
    | none =>
      let arg_dict := pos_arg_names.zip args ++ kwargs
      match (match dictLookupLast arg_dict "alpha" with
             | some v => Except.ok v
             | none =>
               match dictLookupLast arg_dict "kappa" with
               | some v => Except.ok v
               | none => Except.error (PyErr.keyError "kappa")) with
      | .error e => .error e
      | .ok kappa =>
        match dictLookupLast arg_dict "boundaries" with
        | none => .error (.keyError "boundaries")
        | some boundaries =>
          match dictLookupLast arg_dict "u" with
          | none => .error (.keyError "u")
          | some u =>
            let quadrature_tag :=
              match dictLookupLast arg_dict "quad_tag" with
              | some v => v
              | none =>
                match dictLookupLast arg_dict "quadrature_tag" with
                | some v => v
                | none => .discrTag DiscrTag.base
            .ok (kappa, boundaries, u, quadrature_tag)

/-- Coercion of the normalized kappa argument to a DOF array; a plain number broadcasts
to the constant array. -/
def asDOFArray : PyVal → Option DOFArray
  | .field f => some f
  | .num q => some (fun _ => q)
  | _ => none

/-- mirgecom.diffusion.diffusion_operator: run the legacy-argument adapter on the
positional and keyword arguments, then dispatch on the dynamic types of boundaries and
u.  return_grad_u, volume_dd and grad_u are ordinary named parameters of the Python
function and bypass the adapter. -/
def diffusion_operator (dc : Dcoll) (args : List PyVal) (kwargs : List (String × PyVal))
    (return_grad_u : Bool) (volume_dd : DofDesc) (grad_u : Option VecField) :
    Except PyErr DiffResult :=
  match _normalize_arguments args kwargs with
  | .error e => .error e
  | .ok (kappaV, boundariesV, uV, qtV) =>
    match asDOFArray kappaV with
    | none => .error (.typeError "kappa must be a number or a DOFArray")
    | some kappa =>
      match qtV with
      | .discrTag qt =>
        diffusion_operator_body dc kappa boundariesV uV qt return_grad_u volume_dd grad_u
      | _ => .error (.typeError "invalid quadrature tag")

/-- Modelled from the spec (section 6): the gas/wall property layer supplies the wall's
density, heat capacity and thermal conductivity as scalars or fields. -/
structure WallModel where
  density : ℚ
  heat_capacity : ℚ
  thermal_conductivity : DOFArray

/-- The slice of the fluid state the coupling layer reads: its temperature and its
transport thermal conductivity. -/
structure FluidState where
  temperature : DOFArray
  thermal_conductivity : DOFArray

/-- Fluid-side boundary objects: an opaque user boundary (PrescribedFluidBoundary and
friends, external to this core) or the InterfaceFluidBoundary built by the coupling
layer, which carries the exterior temperature, temperature gradient and conductivity. -/
inductive FluidBdry where
  | user (id : Nat)
  | interfaceFluid (ext_t : DOFArray) (ext_grad_t : VecField) (ext_kappa : DOFArray)

abbrev FluidBdryMap : Type := List (DomTag × FluidBdry)

/-- Modelled from the spec (sections 1 and 6): the fluid-side external collaborators of
the coupling layer, none of which live under src/ - make_operator_fluid_states and the
Navier-Stokes grad_t_operator and ns_operator are pure functions from input fields to
output fields.  sigma is the operator-state cache type, phi the fluid conserved-state
type; addField models numpy broadcast addition of a DOF array onto the conserved
state. -/
structure FluidLayer (γ σ φ : Type) : Type 1 where
  makeOperatorFluidStates : Dcoll → FluidState → γ → FluidBdryMap → DiscrTag → DofDesc → σ
  fluidGradTOperator : Dcoll → γ → FluidBdryMap → FluidState → ℚ → DiscrTag → DofDesc →
    Option σ → VecField
  nsOperator : Dcoll → γ → FluidState → FluidBdryMap → ℚ → DiscrTag → DofDesc → σ → φ
  addField : DOFArray → φ → φ

/-- Python dict update: d1's keys keep their order with values overridden by d2, then
d2's new keys follow in order. -/
def dictUpdate {κ ν : Type} [DecidableEq κ] (d1 d2 : List (κ × ν)) : List (κ × ν) :=
  (d1.map (fun p =>
    match dictLookupLast d2 p.1 with
    | some w => (p.1, w)
    | none => p))
  ++ d2.filter (fun q => (dictLookupLast d1 q.1).isNone)

/-- Python indexing v[i] of an object array, raising IndexError out of range. -/
def vget (v : VecField) (i : Nat) : Except PyErr DOFArray :=
  match v.get? i with
  | some f => .ok f
  | none => .error (.indexError "index out of range")

/-- thermally_coupled_fluid_wall._get_interface_boundaries_no_grad: exchange the pair
(temperature, thermal conductivity) of the two sides across the fluid/wall interface
under _InterVolNoGradTag and build, per interface partition, the boundary object carrying
the opposite side's exterior temperature and conductivity, with the exterior gradient
the dim-fold tuple (0*ext_temperature, ...). -/
def _get_interface_boundaries_no_grad {γ : Type} (dc : Dcoll) (gas_model : γ)
    (wall_model : WallModel) (fluid_volume_dd wall_volume_dd : DofDesc)
    (fluid_boundaries : FluidBdryMap) (wall_boundaries : BdryMap)
    (fluid_state : FluidState) (wall_temperature : DOFArray) :
    FluidBdryMap × BdryMap :=
  let inter_vol_tpairs := dc.interVolumeTracePairs (fluid_volume_dd, wall_volume_dd)
    ((fluid_state.temperature, fluid_state.thermal_conductivity),
     (wall_temperature, wall_model.thermal_conductivity))
    CommTag.interVolNoGradTag
  let fluid_interface_boundaries_no_grad :=
    (inter_vol_tpairs (wall_volume_dd, fluid_volume_dd)).map
      (fun tp =>
        (tp.dd.dom,
         FluidBdry.interfaceFluid tp.ext.1 (List.replicate dc.dim (fscale 0 tp.ext.1)) tp.ext.2))
  let wall_interface_boundaries_no_grad :=
    (inter_vol_tpairs (fluid_volume_dd, wall_volume_dd)).map
      (fun tp =>
        (tp.dd.dom,
         BdryObject.interfaceWall tp.ext.1 (List.replicate dc.dim (fscale 0 tp.ext.1)) tp.ext.2))
  (fluid_interface_boundaries_no_grad, wall_interface_boundaries_no_grad)

/-- Modelled from the spec (section 4.4, phase 1): exchange (temperature, conductivity)
under the no-gradient tag; each side's interface boundary carries the opposite side's
exterior temperature and conductivity, with the exterior gradient the zero vector - one
zero component per spatial dimension. -/
def interface_boundaries_no_grad_spec (dc : Dcoll) (wall_model : WallModel)
    (fluid_volume_dd wall_volume_dd : DofDesc) (fluid_state : FluidState)
    (wall_temperature : DOFArray) : FluidBdryMap × BdryMap :=
  let exchange := dc.interVolumeTracePairs (fluid_volume_dd, wall_volume_dd)
    ((fluid_state.temperature, fluid_state.thermal_conductivity),
     (wall_temperature, wall_model.thermal_conductivity))
    CommTag.interVolNoGradTag
  ((exchange (wall_volume_dd, fluid_volume_dd)).map
      (fun tp =>
        (tp.dd.dom, FluidBdry.interfaceFluid tp.ext.1 (List.replicate dc.dim fzero) tp.ext.2)),
   (exchange (fluid_volume_dd, wall_volume_dd)).map
      (fun tp =>
        (tp.dd.dom, BdryObject.interfaceWall tp.ext.1 (List.replicate dc.dim fzero) tp.ext.2)))

/-- thermally_coupled_fluid_wall.coupled_grad_t_operator: build (or reuse) the phase-1
interface boundaries, extend each side's user boundaries with them, and compute the two
temperature gradients - the fluid one through the external Navier-Stokes
grad_t_operator, the wall one through mirgecom.diffusion.grad_operator. -/
def coupled_grad_t_operator {γ σ φ : Type} (dc : Dcoll) (fl : FluidLayer γ σ φ)
    (gas_model : γ) (wall_model : WallModel) (fluid_volume_dd wall_volume_dd : DofDesc)
    (fluid_boundaries : FluidBdryMap) (wall_boundaries : BdryMap)
    (fluid_state : FluidState) (wall_temperature : DOFArray) (time : ℚ)
    (quadrature_tag : DiscrTag) (fluid_operator_states_quad : Option σ)
    (fluid_ib_no_grad : Option FluidBdryMap) (wall_ib_no_grad : Option BdryMap) :
    Except PyErr (VecField × VecField) :=
  let fluid_boundaries := normalize_boundary_keys fluid_boundaries
  let wall_boundaries := normalize_boundary_keys wall_boundaries
  let pair :=
    match fluid_ib_no_grad, wall_ib_no_grad with
    | some fib, some wib => (fib, wib)
    | _, _ =>
      _get_interface_boundaries_no_grad dc gas_model wall_model fluid_volume_dd
        wall_volume_dd fluid_boundaries wall_boundaries fluid_state wall_temperature
  let fluid_full_boundaries_no_grad := dictUpdate fluid_boundaries pair.1
  let wall_full_boundaries_no_grad := dictUpdate wall_boundaries pair.2
  let fluid_grad_t := fl.fluidGradTOperator dc gas_model fluid_full_boundaries_no_grad
    fluid_state time quadrature_tag fluid_volume_dd fluid_operator_states_quad
  match grad_operator dc (.bdryMap wall_full_boundaries_no_grad) (.field wall_temperature)
      quadrature_tag wall_volume_dd with
  | .error e => .error e
  | .ok (.single wall_grad_t) => .ok (fluid_grad_t, wall_grad_t)
  | .ok _ => .error (.typeError "unexpected grad_operator result")

/-- thermally_coupled_fluid_wall.get_interface_boundaries (phase 2): compute both
temperature gradients with the phase-1 boundaries, then exchange the triple
(temperature, grad T, conductivity) under _InterVolTag and build the final interface
boundaries with the exchanged exterior gradient.  Note the internal
coupled_grad_t_operator call hardcodes the base quadrature tag. -/
def get_interface_boundaries {γ σ φ : Type} (dc : Dcoll) (fl : FluidLayer γ σ φ)
    (gas_model : γ) (wall_model : WallModel) (fluid_volume_dd wall_volume_dd : DofDesc)
    (fluid_boundaries : FluidBdryMap) (wall_boundaries : BdryMap)
    (fluid_state : FluidState) (wall_temperature : DOFArray) (time : ℚ)
    (quadrature_tag : DiscrTag) (fluid_operator_states_quad : Option σ)
    (fluid_ib_no_grad : Option FluidBdryMap) (wall_ib_no_grad : Option BdryMap) :
    Except PyErr (FluidBdryMap × BdryMap) :=
  let fluid_boundaries := normalize_boundary_keys fluid_boundaries
  let wall_boundaries := normalize_boundary_keys wall_boundaries
  match coupled_grad_t_operator dc fl gas_model wall_model fluid_volume_dd wall_volume_dd
      fluid_boundaries wall_boundaries fluid_state wall_temperature time DiscrTag.base
      fluid_operator_states_quad fluid_ib_no_grad wall_ib_no_grad with
  | .error e => .error e
  | .ok (fluid_grad_temperature, wall_grad_temperature) =>
    let inter_vol_tpairs := dc.interVolumeTracePairs (fluid_volume_dd, wall_volume_dd)
      ((fluid_state.temperature, fluid_grad_temperature, fluid_state.thermal_conductivity),
       (wall_temperature, wall_grad_temperature, wall_model.thermal_conductivity))
      CommTag.interVolTag
    let fluid_interface_boundaries :=
      (inter_vol_tpairs (wall_volume_dd, fluid_volume_dd)).map
        (fun tp => (tp.dd.dom, FluidBdry.interfaceFluid tp.ext.1 tp.ext.2.1 tp.ext.2.2))
    let wall_interface_boundaries :=
      (inter_vol_tpairs (fluid_volume_dd, wall_volume_dd)).map
        (fun tp => (tp.dd.dom, BdryObject.interfaceWall tp.ext.1 tp.ext.2.1 tp.ext.2.2))
    .ok (fluid_interface_boundaries, wall_interface_boundaries)

/-- thermally_coupled_fluid_wall._heat_operator: the wall heat operator, the diffusion
operator scaled by 1/(rho * c_p).  It calls diffusion_operator with penalty_amount and
quadrature_tag keyword arguments, exactly as the source does. -/
def _heat_operator (dc : Dcoll) (wall_model : WallModel) (boundaries : BdryMap)
    (temperature : DOFArray) (penalty_amount : Option ℚ) (quadrature_tag : DiscrTag)
    (volume_dd : DofDesc) : Except PyErr DOFArray :=
  let penaltyV : PyVal :=
    match penalty_amount with
    | some q => .num q
    | none => .noneV
  match diffusion_operator dc
      [.field wall_model.thermal_conductivity, .bdryMap boundaries, .field temperature]
      [("penalty_amount", penaltyV), ("quadrature_tag", .discrTag quadrature_tag)]
      false volume_dd none with
  | .error e => .error e
  | .ok (.single (.plain diff_u)) =>
      .ok (fscale (1 / (wall_model.density * wall_model.heat_capacity)) diff_u)
  | .ok _ => .error (.typeError "unexpected diffusion_operator result")

/-- thermally_coupled_fluid_wall.coupled_ns_heat_operator: phase 1, the fluid operator
state cache, phase 2, the reused gradient computation, then the fluid Navier-Stokes
operator and the wall heat operator, each over the user boundaries extended by the
interface boundaries; the rhs lines keep the forced data dependency
0*grad_t[0]*grad_t[1] + ... of the source, including its left-to-right evaluation
order. -/
def coupled_ns_heat_operator {γ σ φ : Type} (dc : Dcoll) (fl : FluidLayer γ σ φ)
    (gas_model : γ) (wall_model : WallModel) (fluid_volume_dd wall_volume_dd : DofDesc)
    (fluid_boundaries : FluidBdryMap) (wall_boundaries : BdryMap)
    (fluid_state : FluidState) (wall_temperature : DOFArray) (time : ℚ)
    (wall_time_scale : ℚ) (wall_penalty_amount : Option ℚ) (quadrature_tag : DiscrTag) :
    Except PyErr (φ × DOFArray) :=
  let fluid_boundaries := normalize_boundary_keys fluid_boundaries
  let wall_boundaries := normalize_boundary_keys wall_boundaries
  let pair := _get_interface_boundaries_no_grad dc gas_model wall_model fluid_volume_dd
    wall_volume_dd fluid_boundaries wall_boundaries fluid_state wall_temperature
  let fluid_full_boundaries_no_grad := dictUpdate fluid_boundaries pair.1
  let fluid_operator_states_quad := fl.makeOperatorFluidStates dc fluid_state gas_model
    fluid_full_boundaries_no_grad quadrature_tag fluid_volume_dd
  match get_interface_boundaries dc fl gas_model wall_model fluid_volume_dd
      wall_volume_dd fluid_boundaries wall_boundaries fluid_state wall_temperature time
      quadrature_tag (some fluid_operator_states_quad) (some pair.1) (some pair.2) with
  | .error e => .error e
  | .ok (fluid_interface_boundaries, wall_interface_boundaries) =>
    let fluid_full_boundaries := dictUpdate fluid_boundaries fluid_interface_boundaries
    let wall_full_boundaries := dictUpdate wall_boundaries wall_interface_boundaries
    match coupled_grad_t_operator dc fl gas_model wall_model fluid_volume_dd
        wall_volume_dd fluid_boundaries wall_boundaries fluid_state wall_temperature time
        quadrature_tag (some fluid_operator_states_quad)
        (some fluid_interface_boundaries) (some wall_interface_boundaries) with
    | .error e => .error e
    | .ok (fluid_grad_t, wall_grad_t) =>
      match vget fluid_grad_t 0 with
      | .error e => .error e
      | .ok fg0 =>
        match vget fluid_grad_t 1 with
        | .error e => .error e
        | .ok fg1 =>
          let fluid_rhs := fl.addField (fmul (fscale 0 fg0) fg1)
            (fl.nsOperator dc gas_model fluid_state fluid_full_boundaries time
              quadrature_tag fluid_volume_dd fluid_operator_states_quad)
          match vget wall_grad_t 0 with
          | .error e => .error e
          | .ok wg0 =>
            match vget wall_grad_t 1 with
            | .error e => .error e
            | .ok wg1 =>
              match _heat_operator dc wall_model wall_full_boundaries wall_temperature
                  wall_penalty_amount quadrature_tag wall_volume_dd with
              | .error e => .error e
              | .ok heat =>
                .ok (fluid_rhs,
                  fadd (fmul (fscale 0 wg0) wg1) (fscale wall_time_scale heat))

/-- Whether a Python evaluation raised. -/
def isError {α : Type} : Except PyErr α → Bool
  | .error _ => true
  | .ok _ => false

/-- Whether a Python evaluation raised a TypeError. -/
def isTypeErrorB {α : Type} : Except PyErr α → Bool
  | .error (.typeError _) => true
  | _ => false

/-- Modelled from the spec (section 4.2, Dirichlet): project kappa and grad u onto the
boundary with matching interior/exterior values and evaluate the diffusion_flux kernel
on those continuity-style trace pairs. -/
def dirichlet_diffusion_flux_spec (dc : Dcoll) (dd_bdry : DofDesc) (kappa : DOFArray)
    (grad_u : VecField) (quadrature_tag : DiscrTag) : DOFArray :=
  let kappa_b := dc.proj dd_bdry.untrace dd_bdry kappa
  let grad_u_b := grad_u.map (dc.proj dd_bdry.untrace dd_bdry)
  diffusion_flux dc ⟨dd_bdry, kappa_b, kappa_b⟩ ⟨dd_bdry, grad_u_b, grad_u_b⟩ quadrature_tag

/-- Modelled from the spec (section 4.2, Neumann): the boundary diffusion flux is the
closed form -kappa_minus * g, assembled at quadrature resolution and projected to the
all-faces discretization, with no gradient trace pair. -/
def neumann_diffusion_flux_spec (dc : Dcoll) (dd_bdry : DofDesc) (g : DOFArray)
    (kappa : DOFArray) (quadrature_tag : DiscrTag) : DOFArray :=
  let dd_q := dd_bdry.withDiscrTag quadrature_tag
  dc.proj dd_q dd_q.withBoundaryTagAll
    (fmul (fneg (dc.proj dd_bdry.untrace dd_q kappa)) (dc.proj dd_bdry dd_q g))

/-- Modelled from the spec (section 9): vectorized dispatch of grad_operator as an
ordinary elementwise map of the scalar operator over the paired boundary dicts and
fields. -/
def elementwise_grad_spec (dc : Dcoll) (bls : List BdryMap) (us : List DOFArray)
    (quadrature_tag : DiscrTag) (volume_dd : DofDesc) : Except PyErr GradResult :=
  match mapExcept (fun p => grad_operator_scalar dc p.1 p.2 quadrature_tag volume_dd)
      (bls.zip us) with
  | .error e => .error e
  | .ok gs => .ok (.objArray gs)

/-- Modelled from the spec (section 9): vectorized dispatch of diffusion_operator as an
ordinary elementwise map of the scalar operator over the paired boundary dicts and
fields. -/
def elementwise_diffusion_spec (dc : Dcoll) (kappa : DOFArray) (bls : List BdryMap)
    (us : List DOFArray) (quadrature_tag : DiscrTag) (return_grad_u : Bool)
    (volume_dd : DofDesc) : Except PyErr DiffResult :=
  match mapExcept
      (fun p => diffusion_operator_scalar dc kappa p.1 p.2 quadrature_tag return_grad_u
        volume_dd none)
      (bls.zip us) with
  | .error e => .error e
  | .ok vs => .ok (.objArray vs)

/-- The constant DOF array. -/
def constF (c : ℚ) : DOFArray := fun _ => c

/-- A concrete boundary face descriptor used by concrete evaluations. -/
def ddB : DofDesc := ⟨DomTag.bdry 0 7, DiscrTag.base⟩

/-- A concrete volume descriptor used by concrete evaluations. -/
def ddV : DofDesc := ⟨DomTag.vol 0, DiscrTag.base⟩

/-- A concrete one-dimensional discretization collection: projections are the identity
stencil, normals are identically one, there are no interior faces, and the weak-form and
mass operators are identities.  The inter-volume exchange returns one trace pair per
side, pairing each side's payload with the other side's. -/
def dcId : Dcoll where
  dim := 1
  projStencil := fun _ _ i => [(1, i)]
  normal := fun _ => [constF 1]
  intFaceDds := fun _ => []
  extTrace := fun _ u => u
  weakLocalGrad := fun _ u => [u]
  weakLocalDiv := fun _ v => fsum v
  invMassF := fun _ a => a
  invMassV := fun _ v => v
  faceMassF := fun _ a => a
  faceMassV := fun _ v => v
  interVolumeTracePairs := fun key payload _tag query =>
    if query = (key.2, key.1) then [⟨⟨DomTag.bdry 0 99, DiscrTag.base⟩, payload.1, payload.2⟩]
    else if query = key then [⟨⟨DomTag.bdry 1 99, DiscrTag.base⟩, payload.2, payload.1⟩]
    else []

def c1_kappa_tpair : TracePair DOFArray := ⟨ddB, constF 1, constF 3⟩

def c1_grad_u_tpair : TracePair VecField := ⟨ddB, [constF 1], [constF 3]⟩

/-- A concrete boundary map with one Dirichlet boundary. -/
def c7_bl : BdryMap := [(DomTag.bdry 0 7, BdryObject.dirichlet (constF 1))]

/-- The gradient grad_operator computes for c7_bl on the concrete collection. -/
def c7_grad : VecField :=
  match grad_operator dcId (.bdryMap c7_bl) (.field (constF 2)) DiscrTag.base ddV with
  | .ok (.single g) => g
  | _ => []

/-- A concrete boundary map whose first entry is not a DiffusionBoundary instance. -/
def c8_bl : BdryMap := [(DomTag.bdry 0 3, BdryObject.other "plate")]

/-- A concrete boundary map with one Neumann boundary. -/
def c9_bl : BdryMap := [(DomTag.bdry 0 8, BdryObject.neumann (constF 0))]

/-- A concrete boundary map containing an InterfaceWallBoundary. -/
def c10_bl : BdryMap :=
  [(DomTag.bdry 0 5, BdryObject.interfaceWall (constF 1) [fzero] (constF 1))]

/-- C1: diffusion_flux returns the average of the two per-side fluxes -kappa*(grad_u . n),
each side's kappa and grad_u projected to the quadrature discretization and combined into
that side's flux first and only then averaged; it is not -avg(kappa)*(avg(grad_u) . n),
witnessed at a concrete trace pair where the two formulas give -5 and -4. -/
theorem c1_diffusion_flux_per_side_average :
    (∀ (dc : Dcoll) (kt : TracePair DOFArray) (gt : TracePair VecField) (qt : DiscrTag),
        diffusion_flux dc kt gt qt = diffusion_flux_spec dc kt gt qt)
    ∧ diffusion_flux dcId c1_kappa_tpair c1_grad_u_tpair DiscrTag.base
        ≠ diffusion_flux_avg_first dcId c1_kappa_tpair c1_grad_u_tpair DiscrTag.base := by
  constructor
  · intro dc kt gt qt
    rfl
  · intro h
    have h0 := congrFun h 0
    norm_num [diffusion_flux, diffusion_flux_avg_first, Dcoll.proj, dcId, c1_kappa_tpair,
      c1_grad_u_tpair, constF, fmul, fneg, favg, vavg, vdot, fsum, fadd, fzero,
      TracePair.avg, ddB] at h0

/-- Pointwise product with the zero array is the zero array. -/
theorem fmul_fzero (a : DOFArray) : fmul a fzero = fzero := by
  funext i
  simp [fmul, fzero]

/-- Scaling by zero yields the zero array. -/
theorem fscale_zero (a : DOFArray) : fscale 0 a = fzero := by
  funext i
  simp [fscale, fzero]

theorem list_sum_map_mul_zero (l : List (ℚ × Nat)) :
    (l.map (fun p => p.1 * (0 : ℚ))).sum = 0 := by
  induction l with
  | nil => simp
  | cons h t ih => simp [ih]

/-- Projection is linear, so it maps the zero array to the zero array. -/
theorem Dcoll.proj_fzero (dc : Dcoll) (src dst : DofDesc) :
    dc.proj src dst fzero = fzero := by
  funext i
  simp [Dcoll.proj, fzero, list_sum_map_mul_zero]

/-- Key normalization is the identity on a map whose keys are already domain tags. -/
theorem normalize_boundary_keys_eq {β : Type} (bl : List (DomTag × β)) :
    normalize_boundary_keys bl = bl := by
  simp [normalize_boundary_keys, as_dofdesc_domain_tag]

/-- The validation loop reports exactly the first unrecognized entry. -/
theorem checkBoundaryTypes_eq (bl : BdryMap) :
    checkBoundaryTypes bl =
      match firstUnrecognized bl with
      | some t => .error (.typeError (unrecognizedMsg t))
      | none => .ok () := by
  induction bl with
  | nil => rfl
  | cons q rest ih =>
    obtain ⟨t, b⟩ := q
    by_cases h : isDiffusionBoundaryInstance b = true
    · simp [checkBoundaryTypes, firstUnrecognized, h, ih]
    · simp [checkBoundaryTypes, firstUnrecognized, h]

/-- If the validation loop passes, every entry is a DiffusionBoundary instance. -/
theorem checkBoundaryTypes_ok_mem (bl : BdryMap) (h : checkBoundaryTypes bl = .ok ()) :
    ∀ p ∈ bl, isDiffusionBoundaryInstance p.2 = true := by
  induction bl with
  | nil => intro p hp; cases hp
  | cons q rest ih =>
    obtain ⟨t, b⟩ := q
    by_cases hb : isDiffusionBoundaryInstance b = true
    · intro p hp
      rcases List.mem_cons.mp hp with rfl | hp2
      · exact hb
      · exact ih (by simpa [checkBoundaryTypes, hb] using h) p hp2
    · simp [checkBoundaryTypes, hb] at h

/-- A successful elementwise evaluation preserves the length. -/
theorem mapExcept_ok_length {α β : Type} (f : α → Except PyErr β) :
    ∀ (l : List α) (bs : List β), mapExcept f l = .ok bs → bs.length = l.length := by
  intro l
  induction l with
  | nil =>
    intro bs h
    simp only [mapExcept] at h
    cases h
    rfl
  | cons a rest ih =>
    intro bs h
    simp only [mapExcept] at h
    cases hf : f a with
    | error e => rw [hf] at h; cases h
    | ok b =>
      rw [hf] at h
      cases hr : mapExcept f rest with
      | error e => rw [hr] at h; cases h
      | ok bs2 =>
        rw [hr] at h
        cases h
        simp [ih bs2 hr]

/-- If every entry is a DiffusionBoundary instance, the per-entry call succeeds except on
InterfaceWallBoundary entries where it raises TypeError, and some entry is an
InterfaceWallBoundary, then the elementwise evaluation raises TypeError. -/
theorem mapExcept_interfaceWall_typeError {β : Type}
    (f : DomTag × BdryObject → Except PyErr β)
    (hok : ∀ p, isDiffusionBoundaryInstance p.2 = true → p.2.isInterfaceWall = false →
      ∃ v, f p = .ok v)
    (herr : ∀ p, p.2.isInterfaceWall = true → ∃ m, f p = .error (.typeError m)) :
    ∀ bl : BdryMap, (∀ p ∈ bl, isDiffusionBoundaryInstance p.2 = true) →
      (∃ p ∈ bl, p.2.isInterfaceWall = true) →
      ∃ m, mapExcept f bl = .error (.typeError m) := by
  intro bl
  induction bl with
  | nil =>
    intro _ hex
    rcases hex with ⟨p, hp, _⟩
    cases hp
  | cons q rest ih =>
    intro hall hex
    by_cases hq : q.2.isInterfaceWall = true
    · rcases herr q hq with ⟨m, hm⟩
      exact ⟨m, by simp [mapExcept, hm]⟩
    · have hz : isDiffusionBoundaryInstance q.2 = true := hall q (List.mem_cons_self _ _)
      rcases hok q hz (by simpa using hq) with ⟨v, hv⟩
      have hex2 : ∃ p ∈ rest, p.2.isInterfaceWall = true := by
        rcases hex with ⟨p, hp, hpw⟩
        rcases List.mem_cons.mp hp with rfl | hp2
        · exact absurd hpw hq
        · exact ⟨p, hp2, hpw⟩
      rcases ih (fun p hp => hall p (List.mem_cons_of_mem _ hp)) hex2 with ⟨m, hm⟩
      exact ⟨m, by simp [mapExcept, hv, hm]⟩

/-- The canonical keyword call of diffusion_operator passes the legacy-argument adapter
unchanged and lands in the operator body. -/
theorem diffusion_operator_canonical (dc : Dcoll) (kappa : DOFArray) (bl : BdryMap)
    (u : DOFArray) (qt : DiscrTag) (rgu : Bool) (vd : DofDesc) (g : Option VecField) :
    diffusion_operator dc [.field kappa, .bdryMap bl, .field u]
        [("quadrature_tag", .discrTag qt)] rgu vd g
      = diffusion_operator_body dc kappa (.bdryMap bl) (.field u) qt rgu vd g := rfl

/-- The _heat_operator call of the coupling layer always raises: its penalty_amount
keyword is rejected by diffusion_operator's legacy-argument adapter. -/
theorem heat_operator_unexpected_kwarg (dc : Dcoll) (wall_model : WallModel)
    (boundaries : BdryMap) (temperature : DOFArray) (penalty_amount : Option ℚ)
    (quadrature_tag : DiscrTag) (volume_dd : DofDesc) :
    _heat_operator dc wall_model boundaries temperature penalty_amount quadrature_tag
        volume_dd
      = .error (.typeError
          "diffusion_operator() got an unexpected keyword argument penalty_amount") := by
  cases penalty_amount <;> rfl

/-- A boundary map containing an InterfaceWallBoundary makes the scalar grad_operator
raise TypeError: either the fail-fast validation rejects some entry, or the dispatch of
get_grad_flux on the InterfaceWallBoundary cannot bind the operator's three positional
arguments to its four required positional parameters. -/
theorem grad_operator_scalar_interfaceWall (dc : Dcoll) (bl : BdryMap) (u : DOFArray)
    (qt : DiscrTag) (vd : DofDesc) (t : DomTag) (b : BdryObject)
    (hmem : (t, b) ∈ bl) (hiw : b.isInterfaceWall = true) :
    ∃ m, grad_operator_scalar dc bl u qt vd = .error (.typeError m) := by
  cases hchk : checkBoundaryTypes bl with
  | error e =>
    rw [checkBoundaryTypes_eq] at hchk
    cases hf : firstUnrecognized bl with
    | none => rw [hf] at hchk; cases hchk
    | some t2 =>
      rw [hf] at hchk
      cases hchk
      exact ⟨unrecognizedMsg t2, by
        simp [grad_operator_scalar, normalize_boundary_keys_eq, checkBoundaryTypes_eq, hf]⟩
  | ok unit =>
    have hall := checkBoundaryTypes_ok_mem bl (by cases unit; exact hchk)
    rcases mapExcept_interfaceWall_typeError
        (fun p => BdryObject.call_get_grad_flux p.2 dc (vd.withDomainTag p.1) u qt)
        (by
          intro p hinst hniw
          cases hb : p.2 with
          | dirichlet f =>
            exact ⟨DirichletDiffusionBoundary.get_grad_flux f dc (vd.withDomainTag p.1) u qt,
              by simp only [hb, BdryObject.call_get_grad_flux]⟩
          | neumann g =>
            exact ⟨NeumannDiffusionBoundary.get_grad_flux g dc (vd.withDomainTag p.1) u qt,
              by simp only [hb, BdryObject.call_get_grad_flux]⟩
          | interfaceWall a c d => rw [hb] at hniw; simp [BdryObject.isInterfaceWall] at hniw
          | other s => rw [hb] at hinst; simp [isDiffusionBoundaryInstance] at hinst)
        (by
          intro p hpw
          cases hb : p.2 with
          | interfaceWall a c d =>
            exact ⟨"get_grad_flux() missing 1 required positional argument: u",
              by simp only [hb, BdryObject.call_get_grad_flux]⟩
          | dirichlet f => rw [hb] at hpw; simp [BdryObject.isInterfaceWall] at hpw
          | neumann g => rw [hb] at hpw; simp [BdryObject.isInterfaceWall] at hpw
          | other s => rw [hb] at hpw; simp [BdryObject.isInterfaceWall] at hpw)
        bl hall ⟨(t, b), hmem, hiw⟩ with ⟨m, hm⟩
    exact ⟨m, by
      cases unit
      simp [grad_operator_scalar, normalize_boundary_keys_eq, hchk, hm]⟩

/-- A boundary map containing an InterfaceWallBoundary makes the scalar
diffusion_operator raise TypeError: the validation may reject an entry, the internal
grad_operator call fails on the InterfaceWallBoundary when no gradient was supplied, and
otherwise the dispatch of get_diffusion_flux cannot bind four positional arguments to
its six required positional parameters. -/
theorem diffusion_operator_scalar_interfaceWall (dc : Dcoll) (kappa : DOFArray)
    (bl : BdryMap) (u : DOFArray) (qt : DiscrTag) (rgu : Bool) (vd : DofDesc)
    (g : Option VecField) (t : DomTag) (b : BdryObject)
    (hmem : (t, b) ∈ bl) (hiw : b.isInterfaceWall = true) :
    ∃ m, diffusion_operator_scalar dc kappa bl u qt rgu vd g = .error (.typeError m) := by
  cases hchk : checkBoundaryTypes bl with
  | error e =>
    rw [checkBoundaryTypes_eq] at hchk
    cases hf : firstUnrecognized bl with
    | none => rw [hf] at hchk; cases hchk
    | some t2 =>
      rw [hf] at hchk
      cases hchk
      exact ⟨unrecognizedMsg t2, by
        simp [diffusion_operator_scalar, normalize_boundary_keys_eq, checkBoundaryTypes_eq, hf]⟩
  | ok unit =>
    cases unit
    have hall := checkBoundaryTypes_ok_mem bl hchk
    cases g with
    | none =>
      rcases grad_operator_scalar_interfaceWall dc bl u qt vd t b hmem hiw with ⟨m, hm⟩
      exact ⟨m, by
        simp [diffusion_operator_scalar, normalize_boundary_keys_eq, hchk, hm]⟩
    | some gv =>
      rcases mapExcept_interfaceWall_typeError
          (fun p => BdryObject.call_get_diffusion_flux p.2 dc (vd.withDomainTag p.1)
            kappa gv qt)
          (by
            intro p hinst hniw
            cases hb : p.2 with
            | dirichlet f =>
              exact ⟨DirichletDiffusionBoundary.get_diffusion_flux f dc (vd.withDomainTag p.1)
                kappa gv qt, by simp only [hb, BdryObject.call_get_diffusion_flux]⟩
            | neumann gg =>
              exact ⟨NeumannDiffusionBoundary.get_diffusion_flux gg dc (vd.withDomainTag p.1)
                kappa gv qt, by simp only [hb, BdryObject.call_get_diffusion_flux]⟩
            | interfaceWall a c d => rw [hb] at hniw; simp [BdryObject.isInterfaceWall] at hniw
            | other s => rw [hb] at hinst; simp [isDiffusionBoundaryInstance] at hinst)
          (by
            intro p hpw
            cases hb : p.2 with
            | interfaceWall a c d =>
              exact ⟨"get_diffusion_flux() missing 2 required positional arguments: kappa and grad_u",
                by simp only [hb, BdryObject.call_get_diffusion_flux]⟩
            | dirichlet f => rw [hb] at hpw; simp [BdryObject.isInterfaceWall] at hpw
            | neumann gg => rw [hb] at hpw; simp [BdryObject.isInterfaceWall] at hpw
            | other s => rw [hb] at hpw; simp [BdryObject.isInterfaceWall] at hpw)
          bl hall ⟨(t, b), hmem, hiw⟩ with ⟨m, hm⟩
      exact ⟨m, by
        simp [diffusion_operator_scalar, normalize_boundary_keys_eq, hchk, hm]⟩

/-- C3: the Dirichlet boundary builds its grad-flux trace pair with exterior value
2*f - u_minus, whose face average is exactly f, and delegates to the grad_flux kernel;
when the boundary restriction of u equals f, the boundary grad flux equals grad_flux of
a face trace pair whose interior and exterior values are both f. -/
theorem c3_dirichlet_grad_flux_mirror (dc : Dcoll) (dd_bdry : DofDesc) (u f : DOFArray)
    (qt : DiscrTag) :
    (DirichletDiffusionBoundary.get_grad_flux f dc dd_bdry u qt
        = grad_flux dc
            ⟨dd_bdry, dc.proj dd_bdry.untrace dd_bdry u,
             fsub (fscale 2 f) (dc.proj dd_bdry.untrace dd_bdry u)⟩ qt)
    ∧ favg (dc.proj dd_bdry.untrace dd_bdry u)
        (fsub (fscale 2 f) (dc.proj dd_bdry.untrace dd_bdry u)) = f
    ∧ (dc.proj dd_bdry.untrace dd_bdry u = f →
        DirichletDiffusionBoundary.get_grad_flux f dc dd_bdry u qt
          = grad_flux dc ⟨dd_bdry, f, f⟩ qt) := by
  refine ⟨rfl, ?_, ?_⟩
  · funext i
    simp [favg, fsub, fscale]
  · intro h
    have hext : fsub (fscale 2 f) f = f := by
      funext i
      simp [fsub, fscale]
      ring
    show grad_flux dc
        ⟨dd_bdry, dc.proj dd_bdry.untrace dd_bdry u,
         fsub (fscale 2 f) (dc.proj dd_bdry.untrace dd_bdry u)⟩ qt
      = grad_flux dc ⟨dd_bdry, f, f⟩ qt
    rw [h, hext]

/-- C3 witness: a field whose boundary restriction is the constant 2 with Dirichlet
value 2 on the concrete collection. -/
theorem c3_witness :
    dcId.proj ddB.untrace ddB (constF 2) = constF 2
    ∧ DirichletDiffusionBoundary.get_grad_flux (constF 2) dcId ddB (constF 2)
        DiscrTag.base
      = grad_flux dcId ⟨ddB, constF 2, constF 2⟩ DiscrTag.base := by
  have hproj : dcId.proj ddB.untrace ddB (constF 2) = constF 2 := by
    funext i
    simp [Dcoll.proj, dcId, constF]
  exact ⟨hproj,
    (c3_dirichlet_grad_flux_mirror dcId ddB (constF 2) (constF 2) DiscrTag.base).2.2 hproj⟩

/-- C4: the Dirichlet boundary diffusion flux projects kappa and grad_u onto the
boundary with matching interior and exterior values (continuity-style, not the mirrored
2f - u rule) and delegates to the diffusion_flux kernel; the statement holds for every
prescribed value, so the value plays no role in this flux. -/
theorem c4_dirichlet_diffusion_flux_matching (dc : Dcoll) (dd_bdry : DofDesc)
    (value kappa : DOFArray) (grad_u : VecField) (qt : DiscrTag) :
    DirichletDiffusionBoundary.get_diffusion_flux value dc dd_bdry kappa grad_u qt
      = dirichlet_diffusion_flux_spec dc dd_bdry kappa grad_u qt := rfl

/-- C5: the Neumann boundary diffusion flux is computed directly as -kappa_minus * g
projected to the all-faces discretization, with no gradient trace pair; with g = 0 it is
the zero array. -/
theorem c5_neumann_diffusion_flux_direct (dc : Dcoll) (dd_bdry : DofDesc)
    (g kappa : DOFArray) (grad_u : VecField) (qt : DiscrTag) :
    (NeumannDiffusionBoundary.get_diffusion_flux g dc dd_bdry kappa grad_u qt
        = neumann_diffusion_flux_spec dc dd_bdry g kappa qt)
    ∧ (g = fzero →
        NeumannDiffusionBoundary.get_diffusion_flux g dc dd_bdry kappa grad_u qt
          = fzero) := by
  constructor
  · rfl
  · intro hg
    subst hg
    show dc.proj (dd_bdry.withDiscrTag qt) (dd_bdry.withDiscrTag qt).withBoundaryTagAll
        (fmul (fneg (dc.proj dd_bdry.untrace (dd_bdry.withDiscrTag qt) kappa))
          (dc.proj dd_bdry (dd_bdry.withDiscrTag qt) fzero))
      = fzero
    rw [Dcoll.proj_fzero, fmul_fzero, Dcoll.proj_fzero]

/-- C5 witness: the zero-valued Neumann boundary yields the zero flux on the concrete
collection. -/
theorem c5_witness :
    NeumannDiffusionBoundary.get_diffusion_flux fzero dcId ddB (constF 2) [constF 3]
      DiscrTag.base = fzero :=
  (c5_neumann_diffusion_flux_direct dcId ddB fzero (constF 2) [constF 3]
    DiscrTag.base).2 rfl

/-- C6: the no-gradient phase exchanges the pair (temperature, conductivity) across the
fluid/wall interface under _InterVolNoGradTag, and each side's interface boundary
carries the opposite side's exterior temperature and conductivity with the exterior
gradient equal to the zero vector, one zero component per spatial dimension. -/
theorem c6_no_grad_phase {γ : Type} (dc : Dcoll) (gas_model : γ) (wall_model : WallModel)
    (fluid_volume_dd wall_volume_dd : DofDesc) (fluid_boundaries : FluidBdryMap)
    (wall_boundaries : BdryMap) (fluid_state : FluidState)
    (wall_temperature : DOFArray) :
    _get_interface_boundaries_no_grad dc gas_model wall_model fluid_volume_dd
        wall_volume_dd fluid_boundaries wall_boundaries fluid_state wall_temperature
      = interface_boundaries_no_grad_spec dc wall_model fluid_volume_dd wall_volume_dd
          fluid_state wall_temperature := by
  unfold _get_interface_boundaries_no_grad interface_boundaries_no_grad_spec
  simp [fscale_zero]

/-- C7: diffusion_operator called without a precomputed gradient equals
diffusion_operator called with the gradient grad_operator computes for the same
boundaries, field and quadrature tag; the gradient computation is the only difference
between the two calls. -/
theorem c7_diffusion_operator_grad_reuse (dc : Dcoll) (kappa : DOFArray) (bl : BdryMap)
    (u : DOFArray) (qt : DiscrTag) (rgu : Bool) (vd : DofDesc) (g : VecField)
    (h : grad_operator dc (.bdryMap bl) (.field u) qt vd = .ok (.single g)) :
    diffusion_operator dc [.field kappa, .bdryMap bl, .field u]
        [("quadrature_tag", .discrTag qt)] rgu vd none
      = diffusion_operator dc [.field kappa, .bdryMap bl, .field u]
        [("quadrature_tag", .discrTag qt)] rgu vd (some g) := by
  rw [diffusion_operator_canonical, diffusion_operator_canonical]
  have hscalar : grad_operator_scalar dc bl u qt vd = .ok g := by
    cases hg : grad_operator_scalar dc bl u qt vd with
    | error e => simp [grad_operator, hg] at h
    | ok g2 =>
      simp [grad_operator, hg] at h
      rw [h]
  simp only [diffusion_operator_body, diffusion_operator_scalar,
    normalize_boundary_keys_eq, hscalar]

/-- C7 witness: on the concrete collection with one Dirichlet boundary, supplying the
gradient grad_operator computes gives the same diffusion_operator result as supplying
none. -/
theorem c7_witness :
    grad_operator dcId (.bdryMap c7_bl) (.field (constF 2)) DiscrTag.base ddV
        = .ok (.single c7_grad)
    ∧ diffusion_operator dcId [.field (constF 1), .bdryMap c7_bl, .field (constF 2)]
        [("quadrature_tag", .discrTag DiscrTag.base)] false ddV none
      = diffusion_operator dcId [.field (constF 1), .bdryMap c7_bl, .field (constF 2)]
        [("quadrature_tag", .discrTag DiscrTag.base)] false ddV (some c7_grad) := by
  have h : grad_operator dcId (.bdryMap c7_bl) (.field (constF 2)) DiscrTag.base ddV
      = .ok (.single c7_grad) := rfl
  exact ⟨h, c7_diffusion_operator_grad_reuse dcId (constF 1) c7_bl (constF 2)
    DiscrTag.base false ddV c7_grad h⟩

/-- C8: a boundary map entry whose value is not a DiffusionBoundary instance makes both
grad_operator and diffusion_operator raise TypeError naming the first offending tag,
independently of the field, the conductivity, the collection, and of every other entry's
flux behavior - the validation runs before any flux is computed. -/
theorem c8_unrecognized_boundary_type (dc : Dcoll) (bl : BdryMap) (kappa u : DOFArray)
    (qt : DiscrTag) (rgu : Bool) (vd : DofDesc) (g : Option VecField) (t : DomTag)
    (h : firstUnrecognized bl = some t) :
    grad_operator dc (.bdryMap bl) (.field u) qt vd
        = .error (.typeError (unrecognizedMsg t))
    ∧ diffusion_operator dc [.field kappa, .bdryMap bl, .field u]
        [("quadrature_tag", .discrTag qt)] rgu vd g
        = .error (.typeError (unrecognizedMsg t)) := by
  have hchk : checkBoundaryTypes bl = .error (.typeError (unrecognizedMsg t)) := by
    rw [checkBoundaryTypes_eq, h]
  constructor
  · simp [grad_operator, grad_operator_scalar, normalize_boundary_keys_eq, hchk]
  · rw [diffusion_operator_canonical]
    simp [diffusion_operator_body, diffusion_operator_scalar,
      normalize_boundary_keys_eq, hchk]

/-- C8 witness: the concrete map whose single entry is not a DiffusionBoundary makes the
operators fail with the message naming its tag. -/
theorem c8_witness :
    firstUnrecognized c8_bl = some (DomTag.bdry 0 3)
    ∧ grad_operator dcId (.bdryMap c8_bl) (.field (constF 1)) DiscrTag.base ddV
        = .error (.typeError (unrecognizedMsg (DomTag.bdry 0 3))) := by
  have h : firstUnrecognized c8_bl = some (DomTag.bdry 0 3) := rfl
  exact ⟨h, (c8_unrecognized_boundary_type dcId c8_bl (constF 1) (constF 1) DiscrTag.base
    false ddV none (DomTag.bdry 0 3) h).1⟩

/-- C9: for object-array input, both operators raise TypeError when boundaries is not a
list, raise TypeError when it is a list of different length, and otherwise apply the
scalar operator elementwise to the paired entries, returning a same-length object
array on success. -/
theorem c9_vectorized_dispatch (dc : Dcoll) (b : PyVal) (us : List DOFArray)
    (bls : List BdryMap) (kappa : DOFArray) (qt : DiscrTag) (rgu : Bool) (vd : DofDesc)
    (g : Option VecField) :
    (isBdryList b = false →
      grad_operator dc b (.objArray us) qt vd
          = .error (.typeError "boundaries must be a list if u is an object array")
      ∧ diffusion_operator_body dc kappa b (.objArray us) qt rgu vd g
          = .error (.typeError "boundaries must be a list if u is an object array"))
    ∧ (bls.length ≠ us.length →
      grad_operator dc (.bdryList bls) (.objArray us) qt vd
          = .error (.typeError "boundaries must be the same length as u")
      ∧ diffusion_operator_body dc kappa (.bdryList bls) (.objArray us) qt rgu vd g
          = .error (.typeError "boundaries must be the same length as u"))
    ∧ (bls.length = us.length →
      grad_operator dc (.bdryList bls) (.objArray us) qt vd
          = elementwise_grad_spec dc bls us qt vd
      ∧ diffusion_operator_body dc kappa (.bdryList bls) (.objArray us) qt rgu vd g
          = elementwise_diffusion_spec dc kappa bls us qt rgu vd
      ∧ (∀ gs, grad_operator dc (.bdryList bls) (.objArray us) qt vd
            = .ok (.objArray gs) → gs.length = us.length)) := by
  refine ⟨?_, ?_, ?_⟩
  · intro hb
    cases b <;> first
      | exact ⟨rfl, rfl⟩
      | simp [isBdryList] at hb
  · intro hlen
    exact ⟨by simp [grad_operator, hlen], by simp [diffusion_operator_body, hlen]⟩
  · intro hlen
    refine ⟨by simp [grad_operator, elementwise_grad_spec, hlen],
      by simp [diffusion_operator_body, elementwise_diffusion_spec, hlen], ?_⟩
    intro gs hgs
    simp only [grad_operator, hlen, if_true] at hgs
    cases hm : mapExcept (fun p => grad_operator_scalar dc p.1 p.2 qt vd) (bls.zip us) with
    | error e => rw [hm] at hgs; cases hgs
    | ok gs2 =>
      rw [hm] at hgs
      cases hgs
      have := mapExcept_ok_length _ _ _ hm
      simpa [List.length_zip, hlen] using this

/-- C9 witness: concrete instances of the three branches on the concrete collection. -/
theorem c9_witness :
    grad_operator dcId (.bdryMap []) (.objArray [constF 1]) DiscrTag.base ddV
        = .error (.typeError "boundaries must be a list if u is an object array")
    ∧ grad_operator dcId (.bdryList []) (.objArray [constF 1]) DiscrTag.base ddV
        = .error (.typeError "boundaries must be the same length as u")
    ∧ grad_operator dcId (.bdryList [c9_bl]) (.objArray [constF 2]) DiscrTag.base ddV
        = elementwise_grad_spec dcId [c9_bl] [constF 2] DiscrTag.base ddV :=
  ⟨((c9_vectorized_dispatch dcId (.bdryMap []) [constF 1] [] (constF 1) DiscrTag.base
      false ddV none).1 rfl).1,
   ((c9_vectorized_dispatch dcId (.bdryList []) [constF 1] [] (constF 1) DiscrTag.base
      false ddV none).2.1 (by simp)).1,
   ((c9_vectorized_dispatch dcId (.bdryList [c9_bl]) [constF 2] [c9_bl] (constF 1)
      DiscrTag.base false ddV none).2.2 rfl).1⟩

/-- C10: a boundary map containing an InterfaceWallBoundary makes grad_operator and
diffusion_operator raise TypeError rather than produce a flux: the boundary's
get_grad_flux and get_diffusion_flux declare extra positional parameters (dd_vol, and
also u and penalty_amount for the diffusion flux) absent from the DiffusionBoundary
interface through which the operators call them. -/
theorem c10_interface_wall_type_error (dc : Dcoll) (bl : BdryMap) (kappa u : DOFArray)
    (qt : DiscrTag) (rgu : Bool) (vd : DofDesc) (g : Option VecField) (t : DomTag)
    (b : BdryObject) (hmem : (t, b) ∈ bl) (hiw : b.isInterfaceWall = true) :
    isTypeErrorB (grad_operator dc (.bdryMap bl) (.field u) qt vd) = true
    ∧ isTypeErrorB (diffusion_operator dc [.field kappa, .bdryMap bl, .field u]
        [("quadrature_tag", .discrTag qt)] rgu vd g) = true := by
  constructor
  · rcases grad_operator_scalar_interfaceWall dc bl u qt vd t b hmem hiw with ⟨m, hm⟩
    simp [grad_operator, hm, isTypeErrorB]
  · rw [diffusion_operator_canonical]
    rcases diffusion_operator_scalar_interfaceWall dc kappa bl u qt rgu vd g t b hmem hiw
      with ⟨m, hm⟩
    simp [diffusion_operator_body, hm, isTypeErrorB]

/-- C10 witness: the concrete singleton map holding an InterfaceWallBoundary. -/
theorem c10_witness :
    isTypeErrorB (grad_operator dcId (.bdryMap c10_bl) (.field (constF 1)) DiscrTag.base
        ddV) = true
    ∧ isTypeErrorB (diffusion_operator dcId
        [.field (constF 1), .bdryMap c10_bl, .field (constF 1)]
        [("quadrature_tag", .discrTag DiscrTag.base)] false ddV none) = true :=
  c10_interface_wall_type_error dcId c10_bl (constF 1) (constF 1) DiscrTag.base false ddV
    none (DomTag.bdry 0 5) (BdryObject.interfaceWall (constF 1) [fzero] (constF 1))
    (List.mem_singleton.mpr rfl) rfl

/-- C2: contrary to the claim, coupled_ns_heat_operator never completes a right-hand-side
evaluation: every call raises - the wall-side gradient fails on the interface boundaries'
incompatible get_grad_flux signature whenever interface trace pairs exist, and otherwise
_heat_operator's penalty_amount keyword is rejected by diffusion_operator's
legacy-argument adapter before any wall diffusion is computed. -/
theorem c2_coupled_ns_heat_operator_raises {γ σ φ : Type} (dc : Dcoll)
    (fl : FluidLayer γ σ φ) (gas_model : γ) (wall_model : WallModel)
    (fluid_volume_dd wall_volume_dd : DofDesc) (fluid_boundaries : FluidBdryMap)
    (wall_boundaries : BdryMap) (fluid_state : FluidState) (wall_temperature : DOFArray)
    (time wall_time_scale : ℚ) (wall_penalty_amount : Option ℚ) (qt : DiscrTag) :
    isError (coupled_ns_heat_operator dc fl gas_model wall_model fluid_volume_dd
      wall_volume_dd fluid_boundaries wall_boundaries fluid_state wall_temperature time
      wall_time_scale wall_penalty_amount qt) = true := by
  unfold coupled_ns_heat_operator
  dsimp only
  split
  · rfl
  · split
    · rfl
    · split
      · rfl
      · split
        · rfl
        · split
          · rfl
          · split
            · rfl
            · split
              · rfl
              · rename_i heat hheat
                rw [heat_operator_unexpected_kwarg] at hheat
                cases hheat
